import Mathlib

/-!
Shallow embedding of `fs/fsopen.c` (the `fsopen` / `fspick` / `fsconfig`
system calls and the `fscontext` file operations) and proofs of the
specification claims about it.

External collaborators (the generic option parser, the source setter, tree
construction, driver re-initialization, the security hook, user-memory
copies, the descriptor table and the interruptible mutex) are modelled as
oracle parameters carrying the result the collaborator would return; the
logic of `fsopen.c` itself is translated faithfully, and each function
additionally returns a trace of the collaborator calls it made, so that
ordering and "was X touched" properties can be stated.
-/

namespace Fsopen

/-! ### Error numbers (Linux errno values; calls return the negated value) -/

def EPERM : Int := 1
def EINTR : Int := 4
def EBADF : Int := 9
def ENOMEM : Int := 12
def EFAULT : Int := 14
def EBUSY : Int := 16
def ENODEV : Int := 19
def EINVAL : Int := 22
def ENODATA : Int := 61
def EMSGSIZE : Int := 90
def EOPNOTSUPP : Int := 95

/-- The `AT_FDCWD` sentinel from the uapi headers. -/
def AT_FDCWD : Int := -100

/-! ### The context state machine -/

/-- Modelled from the spec: `enum fs_context_phase` lives in
`include/linux/fs_context.h`, outside the given sources; its six states are
named by the spec (§4.2) and used literally by `fsopen.c`. -/
inductive Phase where
  | CreateParams
  | Creating
  | AwaitingMount
  | ReconfParams
  | AwaitingReconf
  | Failed
deriving DecidableEq, Repr

/-- The part of `struct fs_context` that `fsopen.c` reads or writes:
the phase, plus whether the context's filesystem type has an
`init_fs_context` operation (tested by the reconfiguration preamble). -/
structure FsContext where
  phase : Phase
  has_init : Bool
deriving DecidableEq, Repr

/-- The `enum fsconfig_command` values from the uapi header, used by
`fsconfig`.  `unknown n` stands for any other raw `unsigned int` value,
which both switch statements send to their `default` branch. -/
inductive Cmd where
  | fsconfig_set_flag
  | fsconfig_set_string
  | fsconfig_set_binary
  | fsconfig_set_path
  | fsconfig_set_path_empty
  | fsconfig_set_fd
  | fsconfig_cmd_create
  | fsconfig_cmd_reconfigure
  | unknown (n : Nat)
deriving DecidableEq, Repr

/-- The three parameter-setting commands that `vfs_fsconfig` dispatches to a
collaborator (flag, string, binary). -/
def Cmd.isParamSet : Cmd → Bool
  | .fsconfig_set_flag | .fsconfig_set_string | .fsconfig_set_binary => true
  | _ => false

/-- Collaborator calls made by `vfs_fsconfig`, in order.  `getTree` records
the context's phase at the moment `vfs_get_tree` is invoked. -/
inductive Ev where
  | initFs
  | security
  | setSource (value : Option String)
  | parseOption (key : Option String) (value : Option String) (aux : Int)
  | getTree (phaseAtCall : Phase)
deriving DecidableEq, Repr

/-- Results the external collaborators return during one `vfs_fsconfig`
call (0 means success, a negative value the error to surface). -/
structure Ext where
  init_ret : Int
  security_ret : Int
  set_source_ret : Int
  parse_ret : Int
  get_tree_ret : Int
deriving DecidableEq, Repr

/-- Outcome of `vfs_fsconfig`: a returned code with the final context and
the collaborator-call trace, or the kernel `BUG()` hit by the unimplemented
path/fd commands (`oops` keeps the context and trace at that point). -/
inductive VfsResult where
  | ret (code : Int) (fc : FsContext) (tr : List Ev)
  | oops (fc : FsContext) (tr : List Ev)
deriving DecidableEq, Repr

/-- The context as it stands when `vfs_fsconfig` stops. -/
def VfsResult.endFc : VfsResult → FsContext
  | .ret _ fc _ => fc
  | .oops fc _ => fc

/-- The collaborator-call trace of a `vfs_fsconfig` outcome. -/
def VfsResult.evs : VfsResult → List Ev
  | .ret _ _ tr => tr
  | .oops _ tr => tr

/-- The command `switch` of `vfs_fsconfig` (`fs/fsopen.c` lines 250-288),
run after the reconfiguration preamble.  `tr` is the trace accumulated by
the preamble.  The `set_string` case's fall-through into the
flag/binary case repeats the same phase gate, so it is rendered as a
direct call of the parser collaborator after the (already passed) gate. -/
def fsconfig_dispatch (ext : Ext) (fc : FsContext) (cmd : Cmd)
    (key value : Option String) (aux : Int) (tr : List Ev) : VfsResult :=
  match cmd with
  | .fsconfig_set_string =>
      if fc.phase ≠ .CreateParams ∧ fc.phase ≠ .ReconfParams then
        .ret (-EBUSY) fc tr
      else if key = some ("source") then
        .ret ext.set_source_ret fc (tr ++ [.setSource value])
      else
        .ret ext.parse_ret fc (tr ++ [.parseOption key value aux])
  | .fsconfig_set_flag | .fsconfig_set_binary =>
      if fc.phase ≠ .CreateParams ∧ fc.phase ≠ .ReconfParams then
        .ret (-EBUSY) fc tr
      else
        .ret ext.parse_ret fc (tr ++ [.parseOption key value aux])
  | .fsconfig_set_path | .fsconfig_set_path_empty | .fsconfig_set_fd =>
      if fc.phase ≠ .CreateParams ∧ fc.phase ≠ .ReconfParams then
        .ret (-EBUSY) fc tr
      else
        .oops fc tr
  | .fsconfig_cmd_create =>
      if fc.phase ≠ .CreateParams then
        .ret (-EBUSY) fc tr
      else
        let fc1 : FsContext := { fc with phase := .Creating }
        if ext.get_tree_ret = 0 then
          .ret ext.get_tree_ret { fc1 with phase := .AwaitingMount }
            (tr ++ [.getTree fc1.phase])
        else
          .ret ext.get_tree_ret { fc1 with phase := .Failed }
            (tr ++ [.getTree fc1.phase])
  | _ => .ret (-EOPNOTSUPP) fc tr

/-- Model of `vfs_fsconfig` (`fs/fsopen.c` lines 218-291): the reconfiguration
preamble for contexts in `AwaitingReconf` (re-run `init_fs_context` when
the driver has one, then the security hook, moving the phase to
`ReconfParams` on success and `Failed` on error), then the command switch. -/
def vfs_fsconfig (ext : Ext) (fc : FsContext) (cmd : Cmd)
    (key value : Option String) (aux : Int) : VfsResult :=
  if fc.phase = .AwaitingReconf then
    if fc.has_init then
      if ext.init_ret < 0 then
        .ret ext.init_ret { fc with phase := .Failed } [.initFs]
      else if ext.security_ret < 0 then
        .ret ext.security_ret { fc with phase := .Failed } [.initFs, .security]
      else
        fsconfig_dispatch ext { fc with phase := .ReconfParams } cmd key value aux
          [.initFs, .security]
    else
      if ext.security_ret < 0 then
        .ret ext.security_ret { fc with phase := .Failed } [.security]
      else
        fsconfig_dispatch ext { fc with phase := .ReconfParams } cmd key value aux
          [.security]
  else
    fsconfig_dispatch ext fc cmd key value aux []

/-! ### The `fsconfig` system call -/

/-- What an fd number resolves to in the caller's descriptor table
(modelled from the spec: the descriptor table itself is outside the given
sources).  `otherFile` is a valid open file whose `f_op` is not
`fscontext_fops`. -/
inductive FdEntry where
  | noFile
  | otherFile
  | fsctx (fc : FsContext)
deriving DecidableEq, Repr

/-- Results of the user-memory copy helpers and of the interruptible mutex
acquisition during one `fsconfig` call: `key_res` for
`strndup_user(_key, 256)`, `sval_res` for `strndup_user(_value, 256)`,
`bval_res` for `memdup_user_nul(_value, aux)`, `lock_ret` for
`mutex_lock_interruptible` (0 or a negative error). -/
structure CopyOracle where
  key_res : Except Int String
  sval_res : Except Int String
  bval_res : Except Int String
  lock_ret : Int
deriving Repr

/-- Steps the `fsconfig` entry point performs, in order: descriptor
lookup, key copy-in, value copy-in, lock acquisition, the call into
`vfs_fsconfig`, and the cleanup calls. -/
inductive SysEv where
  | fdget
  | copyKey
  | copyValue
  | lock
  | stateMachine
  | freeValue
  | freeKey
  | fdput
deriving DecidableEq, Repr

/-- Outcome of the `fsconfig` entry point: the returned code, the steps
taken, and (when the fd was bound to a context) the context's final state;
`crash` is the kernel `BUG()` (never reached from this entry point, since
the path/fd commands return `-EOPNOTSUPP` before the state machine). -/
inductive SysResult where
  | ret (code : Int) (evs : List SysEv) (fc : Option FsContext)
  | crash
deriving DecidableEq, Repr

/-- The per-command argument-shape `switch` at the top of `fsconfig`
(`fs/fsopen.c` lines 352-381): `some e` when the call is rejected with
`e`, `none` when the shape is accepted.  `keyPtr` / `valPtr` tell whether
the user pointers `_key` / `_value` are non-NULL. -/
def fsconfig_arg_check (cmd : Cmd) (keyPtr valPtr : Bool) (aux : Int) :
    Option Int :=
  match cmd with
  | .fsconfig_set_flag =>
      if ¬keyPtr ∨ valPtr ∨ aux ≠ 0 then some (-EINVAL) else none
  | .fsconfig_set_string =>
      if ¬keyPtr ∨ ¬valPtr ∨ aux ≠ 0 then some (-EINVAL) else none
  | .fsconfig_set_binary =>
      if ¬keyPtr ∨ ¬valPtr ∨ aux ≤ 0 ∨ aux > 1024 * 1024 then some (-EINVAL)
      else none
  | .fsconfig_set_path | .fsconfig_set_path_empty =>
      if ¬keyPtr ∨ ¬valPtr ∨ (aux ≠ AT_FDCWD ∧ aux < 0) then some (-EINVAL)
      else none
  | .fsconfig_set_fd =>
      if ¬keyPtr ∨ valPtr ∨ aux < 0 then some (-EINVAL) else none
  | .fsconfig_cmd_create | .fsconfig_cmd_reconfigure =>
      if keyPtr ∨ valPtr ∨ aux ≠ 0 then some (-EINVAL) else none
  | .unknown _ => some (-EOPNOTSUPP)

/-- The cleanup steps run after the lock section: `kfree(value)` for the
string/binary commands, then `kfree(key)` and `fdput` (lines 430-442). -/
def fsconfig_cleanup (cmd : Cmd) : List SysEv :=
  (match cmd with
    | .fsconfig_set_string | .fsconfig_set_binary => [SysEv.freeValue]
    | _ => []) ++ [SysEv.freeKey, SysEv.fdput]

/-- The locked tail of `fsconfig` (lines 424-442): take the uapi mutex
interruptibly, call `vfs_fsconfig` when acquisition succeeded, then free
the copied buffers and drop the fd reference. -/
def sys_fsconfig_locked (co : CopyOracle) (ext : Ext) (fc : FsContext)
    (cmd : Cmd) (key value : Option String) (aux : Int) (evs : List SysEv) :
    SysResult :=
  if co.lock_ret ≠ 0 then
    .ret co.lock_ret (evs ++ [SysEv.lock] ++ fsconfig_cleanup cmd) (some fc)
  else
    match vfs_fsconfig ext fc cmd key value aux with
    | .ret c fc2 _ =>
        .ret c (evs ++ [SysEv.lock, SysEv.stateMachine] ++ fsconfig_cleanup cmd)
          (some fc2)
    | .oops _ _ => .crash

/-- Model of the `fsconfig` system call (`fs/fsopen.c` lines 336-443): negative-fd
check, argument-shape check, descriptor lookup (`-EBADF` when nothing is
open there, `-EINVAL` when the open file is not an fscontext), copy-in of
key and value, then the locked call into the state machine. -/
def sys_fsconfig (tbl : Int → FdEntry) (co : CopyOracle) (ext : Ext)
    (fd : Int) (cmd : Cmd) (keyPtr valPtr : Bool) (aux : Int) : SysResult :=
  if fd < 0 then .ret (-EINVAL) [] none
  else match fsconfig_arg_check cmd keyPtr valPtr aux with
  | some e => .ret e [] none
  | none =>
    match tbl fd with
    | .noFile => .ret (-EBADF) [SysEv.fdget] none
    | .otherFile => .ret (-EINVAL) [SysEv.fdget, SysEv.fdput] none
    | .fsctx fc =>
      match (if keyPtr then
               match co.key_res with
               | .error e => Except.error e
               | .ok k => Except.ok (some k)
             else Except.ok (none : Option String)) with
      | .error e =>
          .ret e [SysEv.fdget, SysEv.copyKey, SysEv.fdput] none
      | .ok key =>
        let evs1 : List SysEv :=
          if keyPtr then [SysEv.fdget, SysEv.copyKey] else [SysEv.fdget]
        match cmd with
        | .fsconfig_set_string =>
            match co.sval_res with
            | .error e =>
                .ret e (evs1 ++ [SysEv.copyValue, SysEv.freeKey, SysEv.fdput])
                  none
            | .ok v =>
                sys_fsconfig_locked co ext fc cmd key (some v) aux
                  (evs1 ++ [SysEv.copyValue])
        | .fsconfig_set_binary =>
            match co.bval_res with
            | .error e =>
                .ret e (evs1 ++ [SysEv.copyValue, SysEv.freeKey, SysEv.fdput])
                  none
            | .ok v =>
                sys_fsconfig_locked co ext fc cmd key (some v) aux
                  (evs1 ++ [SysEv.copyValue])
        | .fsconfig_set_path | .fsconfig_set_path_empty | .fsconfig_set_fd =>
            .ret (-EOPNOTSUPP) (evs1 ++ [SysEv.freeKey, SysEv.fdput]) none
        | _ =>
            sys_fsconfig_locked co ext fc cmd key none aux evs1

/-! ### The diagnostic log and the fscontext file operations -/

/-- Number of slots in the log ring (`ARRAY_SIZE(log->buffer)`). -/
def logsize : Nat := 8

/-- Modelled from the spec: `struct fc_log` lives in
`include/linux/fs_context.h`, outside the given sources.  Per §3 of the
spec it is a fixed-size circular array of `logsize` slots (a power of
two), each slot an optional owned text buffer plus an ownership flag
(the `need_free` bitmask in the source), with monotonically increasing
unsigned `head` and `tail` counters. -/
structure FcLog where
  buffer : Fin logsize → Option String
  need_free : Fin logsize → Bool
  head : Nat
  tail : Nat

/-- The slot index `tail & (logsize - 1)` used by `fscontext_read`. -/
def logIndex (tail : Nat) : Fin logsize :=
  ⟨tail &&& (logsize - 1), lt_of_le_of_lt Nat.and_le_right (by decide)⟩

/-- Outcome of `fscontext_read`: the returned code (the message length on
success), the log afterwards, and whether the popped message's owned
buffer was passed to `kfree`. -/
structure ReadResult where
  ret : Int
  log : FcLog
  freed : Bool

/-- Model of `fscontext_read` (`fs/fsopen.c` lines 25-66): take the uapi mutex
interruptibly (`lock_ret` is that acquisition's result); fail `-ENODATA`
on an empty ring; otherwise pop the oldest message — clear its slot and
ownership bit and advance `tail` — and only then compare its length with
the caller's buffer size `len`, failing `-EMSGSIZE` when too long and
`-EFAULT` when the user copy fails (`copy_ok` is that copy's outcome).
The owned buffer is freed on every exit after the pop.  Returns `none`
for the NULL dereference the C would perform if a pending slot were
empty, which the ring invariant rules out. -/
def fscontext_read (lock_ret : Int) (log : FcLog) (len : Nat)
    (copy_ok : Bool) : Option ReadResult :=
  if lock_ret < 0 then some ⟨lock_ret, log, false⟩
  else if log.head = log.tail then some ⟨-ENODATA, log, false⟩
  else
    let index := logIndex log.tail
    match log.buffer index with
    | none => none
    | some p =>
      let needFree := log.need_free index
      let log2 : FcLog :=
        { buffer := fun i => if i = index then none else log.buffer i
          need_free := fun i => if i = index then false else log.need_free i
          head := log.head
          tail := log.tail + 1 }
      if p.length > len then some ⟨-EMSGSIZE, log2, needFree⟩
      else if ¬copy_ok then some ⟨-EFAULT, log2, needFree⟩
      else some ⟨(p.length : Int), log2, needFree⟩

/-- The `private_data` of an fscontext file: an owning context reference,
or NULL once cleared. -/
structure FsFile where
  private_data : Option FsContext
deriving DecidableEq, Repr

/-- Model of `fscontext_release` (`fs/fsopen.c` lines 68-77): when a context is
still attached, clear the pointer and drop the reference, then return 0.
The result is the returned code, the file afterwards, and how many times
`put_fs_context` was called. -/
def fscontext_release (file : FsFile) : Int × FsFile × Nat :=
  match file.private_data with
  | some _ => (0, ⟨none⟩, 1)
  | none => (0, file, 0)

/-! ### The `fspick` system call -/

/-- Modelled from the spec: the `FSPICK_*` flag bits live in the uapi
header, outside the given sources; each bit is a boolean here, plus one
flag standing for any bit outside the four known ones. -/
structure FspickFlags where
  cloexec : Bool
  symlink_nofollow : Bool
  no_automount : Bool
  empty_path : Bool
  unknown_bits : Bool
deriving DecidableEq, Repr

/-- The `LOOKUP_*` bits `fspick` assembles for path resolution. -/
structure LookupFlags where
  follow : Bool
  automount : Bool
  empty : Bool
deriving DecidableEq, Repr

/-- Lines 175-181 of `fs/fsopen.c`: start from follow+automount, clear
them on the corresponding no-flags, add empty-path on request. -/
def fspick_lookup_flags (flags : FspickFlags) : LookupFlags :=
  { follow := ¬flags.symlink_nofollow
    automount := ¬flags.no_automount
    empty := flags.empty_path }

/-- What `fspick`'s path resolution found: whether the target
superblock's operations include `reconfigure`. -/
structure PathTarget where
  supports_reconfigure : Bool
deriving DecidableEq, Repr

/-- Collaborator results for one `fspick` call: the capability check,
`user_path_at` (as a function of the lookup flags passed to it),
`vfs_new_fs_context`, the log allocation, and `anon_inode_getfd`. -/
structure FspickExt where
  capable : Bool
  path_res : LookupFlags → Except Int PathTarget
  new_fc_res : Except Int FsContext
  log_alloc_ret : Int
  fd_res : Except Int Nat

/-- Counts of the state-changing collaborator calls one `fspick` call
made: `vfs_new_fs_context` attempts, log allocations, `put_fs_context`
calls and `path_put` calls. -/
structure FspickStats where
  new_fc_calls : Nat
  log_alloc_calls : Nat
  put_fc_calls : Nat
  path_puts : Nat
deriving DecidableEq, Repr

/-- Model of `fspick` (`fs/fsopen.c` lines 159-212): capability and flag checks,
path resolution, the reconfigure-support test (`-EOPNOTSUPP` before any
context is created), context construction in phase `ReconfParams`, log
allocation, and descriptor binding; every error path releases the
resolved path exactly once.  The result carries the returned code, the
collaborator-call counts, and on success the context bound to the new
descriptor. -/
def fspick (ext : FspickExt) (flags : FspickFlags) :
    Int × FspickStats × Option FsContext :=
  if ¬ext.capable then (-EPERM, ⟨0, 0, 0, 0⟩, none)
  else if flags.unknown_bits then (-EINVAL, ⟨0, 0, 0, 0⟩, none)
  else match ext.path_res (fspick_lookup_flags flags) with
  | .error e => (e, ⟨0, 0, 0, 0⟩, none)
  | .ok target =>
    if ¬target.supports_reconfigure then (-EOPNOTSUPP, ⟨0, 0, 0, 1⟩, none)
    else match ext.new_fc_res with
    | .error e => (e, ⟨1, 0, 0, 1⟩, none)
    | .ok fc0 =>
      let fc : FsContext := { fc0 with phase := .ReconfParams }
      if ext.log_alloc_ret < 0 then
        (ext.log_alloc_ret, ⟨1, 1, 1, 1⟩, none)
      else match ext.fd_res with
      | .ok fd => ((fd : Int), ⟨1, 1, 0, 1⟩, some fc)
      | .error e => (e, ⟨1, 1, 1, 1⟩, none)

/-! ### Derived accessors and concrete instances used by the theorems -/

/-- The code `vfs_fsconfig` returned, or `none` when it hit the `BUG()`. -/
def VfsResult.retCode : VfsResult → Option Int
  | .ret c _ _ => some c
  | .oops _ _ => none

/-- The collaborator calls the `AwaitingReconf` preamble makes for a given
context: `init_fs_context` when the driver has one, then the security
hook. -/
def preambleEvs (fc : FsContext) : List Ev :=
  (if fc.has_init then [Ev.initFs] else []) ++ [Ev.security]

/-- The code a successful phase gate hands back for a parameter-setting
command: the source setter's result on the string/"source" fast path, the
generic parser's result otherwise. -/
def paramRet (ext : Ext) (cmd : Cmd) (key : Option String) : Int :=
  if cmd = .fsconfig_set_string ∧ key = some ("source") then ext.set_source_ret
  else ext.parse_ret

/-- Collaborators that all succeed with 0. -/
def ext0 : Ext := ⟨0, 0, 0, 0, 0⟩

/-- Collaborators where driver re-initialization fails with `-ENOMEM`. -/
def extInitFail : Ext := ⟨-12, 0, 0, 0, 0⟩

/-- A descriptor table with a non-fscontext open file at fd 3 and nothing
else. -/
def tbl0 : Int → FdEntry := fun n => if n = 3 then .otherFile else .noFile

/-- Copy-ins and lock acquisition that all succeed. -/
def co0 : CopyOracle := ⟨.ok (""), .ok (""), .ok (""), 0⟩

/-- A log holding one pending owned eight-byte message in slot 0. -/
def exLog : FcLog :=
  { buffer := fun i => if i = (⟨0, by decide⟩ : Fin logsize) then some ("overflow") else none
    need_free := fun i => if i = (⟨0, by decide⟩ : Fin logsize) then true else false
    head := 1
    tail := 0 }

/-- An `fspick` environment whose path resolution finds a target without
reconfigure support. -/
def fspickExt0 : FspickExt :=
  ⟨true, fun _ => .ok ⟨false⟩, .ok ⟨.CreateParams, false⟩, 0, .ok 4⟩

/-- An `fspick` flags word with no bits set. -/
def fspickFlags0 : FspickFlags := ⟨false, false, false, false, false⟩

/-! ## Helper lemmas -/

/-- Outside `AwaitingReconf`, `vfs_fsconfig` goes straight to the command
switch with an empty trace. -/
theorem vfs_fsconfig_not_awaiting (ext : Ext) (fc : FsContext) (cmd : Cmd)
    (key value : Option String) (aux : Int)
    (h : fc.phase ≠ .AwaitingReconf) :
    vfs_fsconfig ext fc cmd key value aux =
      fsconfig_dispatch ext fc cmd key value aux [] := by
  simp [vfs_fsconfig, h]

/-- In `AwaitingReconf`, when re-initialization (if the driver has it) and
the security hook both succeed, `vfs_fsconfig` dispatches the command from
phase `ReconfParams` with the preamble calls already traced. -/
theorem vfs_fsconfig_preamble_ok (ext : Ext) (fc : FsContext) (cmd : Cmd)
    (key value : Option String) (aux : Int)
    (h : fc.phase = .AwaitingReconf)
    (hi : fc.has_init = true → 0 ≤ ext.init_ret) (hs : 0 ≤ ext.security_ret) :
    vfs_fsconfig ext fc cmd key value aux =
      fsconfig_dispatch ext { fc with phase := .ReconfParams } cmd key value
        aux (preambleEvs fc) := by
  cases hh : fc.has_init with
  | false => simp [vfs_fsconfig, h, hh, preambleEvs, not_lt.mpr hs]
  | true =>
      simp [vfs_fsconfig, h, hh, preambleEvs, not_lt.mpr hs,
        not_lt.mpr (hi hh)]

/-- In `AwaitingReconf`, a failing driver re-initialization surfaces its
error and moves the phase to `Failed` without calling anything further. -/
theorem vfs_fsconfig_init_fail (ext : Ext) (fc : FsContext) (cmd : Cmd)
    (key value : Option String) (aux : Int)
    (h : fc.phase = .AwaitingReconf) (hh : fc.has_init = true)
    (hi : ext.init_ret < 0) :
    vfs_fsconfig ext fc cmd key value aux =
      .ret ext.init_ret { fc with phase := .Failed } [Ev.initFs] := by
  simp [vfs_fsconfig, h, hh, hi]

/-- In `AwaitingReconf`, a failing security hook (after a successful or
absent re-initialization) surfaces its error and moves the phase to
`Failed`. -/
theorem vfs_fsconfig_security_fail (ext : Ext) (fc : FsContext) (cmd : Cmd)
    (key value : Option String) (aux : Int)
    (h : fc.phase = .AwaitingReconf)
    (hi : fc.has_init = true → 0 ≤ ext.init_ret)
    (hs : ext.security_ret < 0) :
    vfs_fsconfig ext fc cmd key value aux =
      .ret ext.security_ret { fc with phase := .Failed } (preambleEvs fc) := by
  cases hh : fc.has_init with
  | false => simp [vfs_fsconfig, h, hh, hs, preambleEvs]
  | true => simp [vfs_fsconfig, h, hh, hs, preambleEvs, not_lt.mpr (hi hh)]

/-- From phase `ReconfParams` the command switch never changes the
context: every command is either gated, handled without a phase write, or
rejected by the default branch. -/
theorem dispatch_endFc_of_reconf (ext : Ext) (fc : FsContext) (cmd : Cmd)
    (key value : Option String) (aux : Int) (tr : List Ev)
    (h : fc.phase = .ReconfParams) :
    (fsconfig_dispatch ext fc cmd key value aux tr).endFc = fc := by
  cases cmd <;> simp [fsconfig_dispatch, VfsResult.endFc, h]
  all_goals split_ifs <;> simp [VfsResult.endFc]

/-- The command switch only ever appends to the trace it is given. -/
theorem dispatch_evs_extend (ext : Ext) (fc : FsContext) (cmd : Cmd)
    (key value : Option String) (aux : Int) (tr : List Ev) :
    ∃ rest, (fsconfig_dispatch ext fc cmd key value aux tr).evs = tr ++ rest := by
  have hnil : tr = tr ++ [] := (List.append_nil tr).symm
  cases cmd
  case fsconfig_set_flag =>
    simp only [fsconfig_dispatch]; split_ifs
    · exact ⟨[], hnil⟩
    · exact ⟨[Ev.parseOption key value aux], rfl⟩
  case fsconfig_set_string =>
    simp only [fsconfig_dispatch]; split_ifs
    · exact ⟨[], hnil⟩
    · exact ⟨[Ev.setSource value], rfl⟩
    · exact ⟨[Ev.parseOption key value aux], rfl⟩
  case fsconfig_set_binary =>
    simp only [fsconfig_dispatch]; split_ifs
    · exact ⟨[], hnil⟩
    · exact ⟨[Ev.parseOption key value aux], rfl⟩
  case fsconfig_set_path =>
    simp only [fsconfig_dispatch]; split_ifs
    · exact ⟨[], hnil⟩
    · exact ⟨[], hnil⟩
  case fsconfig_set_path_empty =>
    simp only [fsconfig_dispatch]; split_ifs
    · exact ⟨[], hnil⟩
    · exact ⟨[], hnil⟩
  case fsconfig_set_fd =>
    simp only [fsconfig_dispatch]; split_ifs
    · exact ⟨[], hnil⟩
    · exact ⟨[], hnil⟩
  case fsconfig_cmd_create =>
    simp only [fsconfig_dispatch]; split_ifs
    · exact ⟨[], hnil⟩
    · exact ⟨[Ev.getTree Phase.Creating], rfl⟩
    · exact ⟨[Ev.getTree Phase.Creating], rfl⟩
  case fsconfig_cmd_reconfigure => exact ⟨[], hnil⟩
  case unknown n => exact ⟨[], hnil⟩

/-- On a passed phase gate, a parameter-setting command routes to the
source setter exactly on the string/"source" pair and to the generic
parser otherwise. -/
theorem dispatch_param_pass (ext : Ext) (fc : FsContext) (cmd : Cmd)
    (key value : Option String) (aux : Int) (tr : List Ev)
    (hc : cmd.isParamSet = true)
    (h : fc.phase = .CreateParams ∨ fc.phase = .ReconfParams) :
    fsconfig_dispatch ext fc cmd key value aux tr =
      (if cmd = .fsconfig_set_string ∧ key = some ("source") then
        .ret ext.set_source_ret fc (tr ++ [Ev.setSource value])
      else
        .ret ext.parse_ret fc (tr ++ [Ev.parseOption key value aux])) := by
  have hg : ¬(fc.phase ≠ .CreateParams ∧ fc.phase ≠ .ReconfParams) := by
    rcases h with h | h <;> simp [h]
  cases cmd
  case fsconfig_set_flag => simp [fsconfig_dispatch, hg]
  case fsconfig_set_string => simp [fsconfig_dispatch, hg]
  case fsconfig_set_binary => simp [fsconfig_dispatch, hg]
  all_goals simp [Cmd.isParamSet] at hc

/-! ## Claim C9 -/

/-- C9: for every context in phase `AwaitingReconf`, any command reaching
`vfs_fsconfig` first runs driver re-initialization (when the driver has
one) and the security check before the command is dispatched; if both
succeed the phase becomes `ReconfParams` even when the command itself
subsequently fails, and if either fails the phase becomes `Failed` and
that error is returned. -/
theorem C9_awaiting_reconf_preamble (ext : Ext) (fc : FsContext) (cmd : Cmd)
    (key value : Option String) (aux : Int)
    (h : fc.phase = .AwaitingReconf) :
    (fc.has_init = true → ext.init_ret < 0 →
      vfs_fsconfig ext fc cmd key value aux =
        .ret ext.init_ret { fc with phase := .Failed } [Ev.initFs]) ∧
    ((fc.has_init = true → 0 ≤ ext.init_ret) → ext.security_ret < 0 →
      vfs_fsconfig ext fc cmd key value aux =
        .ret ext.security_ret { fc with phase := .Failed } (preambleEvs fc)) ∧
    ((fc.has_init = true → 0 ≤ ext.init_ret) → 0 ≤ ext.security_ret →
      (vfs_fsconfig ext fc cmd key value aux).endFc.phase = .ReconfParams ∧
      ∃ rest, (vfs_fsconfig ext fc cmd key value aux).evs =
        preambleEvs fc ++ rest) := by
  refine ⟨fun hh hi => vfs_fsconfig_init_fail ext fc cmd key value aux h hh hi,
    fun hi hs => vfs_fsconfig_security_fail ext fc cmd key value aux h hi hs,
    fun hi hs => ?_⟩
  rw [vfs_fsconfig_preamble_ok ext fc cmd key value aux h hi hs]
  refine ⟨?_, dispatch_evs_extend ext _ cmd key value aux (preambleEvs fc)⟩
  rw [dispatch_endFc_of_reconf ext _ cmd key value aux (preambleEvs fc) rfl]

/-- Witness for C9 at a concrete input: a legacy-ops context (no
re-initialization hook) in `AwaitingReconf` gets the security check run
and ends in `ReconfParams` with the preamble first in the trace. -/
theorem C9_witness :
    (⟨.AwaitingReconf, false⟩ : FsContext).phase = Phase.AwaitingReconf ∧
    ((⟨.AwaitingReconf, false⟩ : FsContext).has_init = true →
      0 ≤ ext0.init_ret) ∧ 0 ≤ ext0.security_ret ∧
    ((vfs_fsconfig ext0 ⟨.AwaitingReconf, false⟩ .fsconfig_set_flag
        (some ("ro")) none 0).endFc.phase = .ReconfParams ∧
      ∃ rest, (vfs_fsconfig ext0 ⟨.AwaitingReconf, false⟩ .fsconfig_set_flag
          (some ("ro")) none 0).evs =
        preambleEvs ⟨.AwaitingReconf, false⟩ ++ rest) :=
  ⟨rfl, fun hh => by simp at hh, by decide,
    (C9_awaiting_reconf_preamble ext0 ⟨.AwaitingReconf, false⟩
        .fsconfig_set_flag (some ("ro")) none 0 rfl).2.2
      (fun hh => by simp at hh) (by decide)⟩

/-! ## Claim C10 -/

/-- C10: the descriptor release operation is idempotent on one file
object: it clears the stored context pointer, so releasing twice drops
the context reference exactly once, and every call returns 0. -/
theorem C10_release_idempotent (f g : FsFile) (fc : FsContext)
    (h : f.private_data = some fc) :
    (fscontext_release g).1 = 0 ∧
    (fscontext_release f).2.2 = 1 ∧
    ((fscontext_release f).2.1).private_data = none ∧
    (fscontext_release (fscontext_release f).2.1).2.2 = 0 ∧
    (fscontext_release f).2.2 +
      (fscontext_release (fscontext_release f).2.1).2.2 = 1 := by
  rcases g with ⟨_ | gfc⟩ <;> simp [fscontext_release, h]

/-- Witness for C10 at a concrete input: releasing a file bound to a
fresh create context twice drops the reference once, and releasing an
already-cleared file returns 0. -/
theorem C10_witness :
    (FsFile.mk (some ⟨.CreateParams, false⟩)).private_data =
      some (⟨.CreateParams, false⟩ : FsContext) ∧
    ((fscontext_release ⟨none⟩).1 = 0 ∧
      (fscontext_release ⟨some ⟨.CreateParams, false⟩⟩).2.2 = 1 ∧
      ((fscontext_release ⟨some ⟨.CreateParams, false⟩⟩).2.1).private_data =
        none ∧
      (fscontext_release
        (fscontext_release ⟨some ⟨.CreateParams, false⟩⟩).2.1).2.2 = 0 ∧
      (fscontext_release ⟨some ⟨.CreateParams, false⟩⟩).2.2 +
        (fscontext_release
          (fscontext_release ⟨some ⟨.CreateParams, false⟩⟩).2.1).2.2 = 1) :=
  ⟨rfl, C10_release_idempotent ⟨some ⟨.CreateParams, false⟩⟩ ⟨none⟩
    ⟨.CreateParams, false⟩ rfl⟩

/-! ## Claim C8 -/

/-- C8: an `fspick` call whose path resolves to a target without
reconfigure support fails with `-EOPNOTSUPP` before any context is
constructed or log allocated, and releases the resolved path exactly
once. -/
theorem C8_fspick_unsupported_target (ext : FspickExt) (flags : FspickFlags)
    (target : PathTarget)
    (hcap : ext.capable = true) (hbits : flags.unknown_bits = false)
    (hpath : ext.path_res (fspick_lookup_flags flags) = .ok target)
    (hsup : target.supports_reconfigure = false) :
    fspick ext flags = (-EOPNOTSUPP, ⟨0, 0, 0, 1⟩, none) := by
  simp [fspick, hcap, hbits, hpath, hsup]

/-- Witness for C8 at a concrete input. -/
theorem C8_witness :
    fspickExt0.capable = true ∧ fspickFlags0.unknown_bits = false ∧
    fspickExt0.path_res (fspick_lookup_flags fspickFlags0) = .ok ⟨false⟩ ∧
    (⟨false⟩ : PathTarget).supports_reconfigure = false ∧
    fspick fspickExt0 fspickFlags0 = (-EOPNOTSUPP, ⟨0, 0, 0, 1⟩, none) :=
  ⟨rfl, rfl, rfl, rfl,
    C8_fspick_unsupported_target fspickExt0 fspickFlags0 ⟨false⟩ rfl rfl rfl
      rfl⟩

/-! ## Claim C5 -/

/-- C5: a read on a descriptor whose log is non-empty pops the oldest
message (tail advanced, slot and ownership bit cleared) before the
caller's buffer size is checked, so a message longer than the buffer
fails with `-EMSGSIZE` with the message consumed and its owned buffer
freed; a read on an empty log (`head = tail`) fails with `-ENODATA` and
does not advance `tail`. -/
theorem C5_read_pops_before_size_check (log : FcLog) (len : Nat)
    (copy_ok : Bool) (p : String) :
    (log.head ≠ log.tail → log.buffer (logIndex log.tail) = some p →
      len < p.length →
      ∃ log2, fscontext_read 0 log len copy_ok =
          some ⟨-EMSGSIZE, log2, log.need_free (logIndex log.tail)⟩ ∧
        log2.head = log.head ∧ log2.tail = log.tail + 1 ∧
        log2.buffer (logIndex log.tail) = none ∧
        log2.need_free (logIndex log.tail) = false) ∧
    (log.head = log.tail →
      fscontext_read 0 log len copy_ok = some ⟨-ENODATA, log, false⟩) := by
  constructor
  · intro hne hbuf hlen
    refine ⟨⟨fun i => if i = logIndex log.tail then none else log.buffer i,
        fun i => if i = logIndex log.tail then false else log.need_free i,
        log.head, log.tail + 1⟩, ?_, rfl, rfl, ?_, ?_⟩
    · simp [fscontext_read, hne, hbuf, hlen]
    · simp
    · simp
  · intro he
    simp [fscontext_read, he]

/-- Witness for C5 at a concrete input: an eight-byte pending message and
a two-byte buffer. -/
theorem C5_witness :
    exLog.head ≠ exLog.tail ∧
    exLog.buffer (logIndex exLog.tail) = some ("overflow") ∧
    2 < ("overflow").length ∧
    (∃ log2, fscontext_read 0 exLog 2 true =
        some ⟨-EMSGSIZE, log2, exLog.need_free (logIndex exLog.tail)⟩ ∧
      log2.head = exLog.head ∧ log2.tail = exLog.tail + 1 ∧
      log2.buffer (logIndex exLog.tail) = none ∧
      log2.need_free (logIndex exLog.tail) = false) :=
  ⟨by decide, by decide, by decide,
    (C5_read_pops_before_size_check exLog 2 true ("overflow")).1 (by decide)
      (by decide) (by decide)⟩

/-! ## Claim C6 -/

/-- C6: the `set_binary` auxiliary length must be between 1 and 1,048,576
inclusive; a call with a length of zero, negative, or above the bound
fails `-EINVAL` before the descriptor is resolved — the step trace is
empty, so no descriptor state is touched. -/
theorem C6_binary_size_bounds (tbl : Int → FdEntry) (co : CopyOracle)
    (ext : Ext) (fd : Int) (keyPtr valPtr : Bool) (aux : Int) :
    ((1 ≤ aux ∧ aux ≤ 1024 * 1024) →
      fsconfig_arg_check .fsconfig_set_binary true true aux = none) ∧
    ((aux ≤ 0 ∨ 1024 * 1024 < aux) →
      sys_fsconfig tbl co ext fd .fsconfig_set_binary keyPtr valPtr aux =
        .ret (-EINVAL) [] none) := by
  constructor
  · rintro ⟨h1, h2⟩
    simp only [fsconfig_arg_check]
    rw [if_neg]
    rintro (hk | hv | ha | ha)
    · exact hk trivial
    · exact hv trivial
    · omega
    · omega
  · intro h
    rcases lt_or_le fd 0 with hfd | hfd
    · simp [sys_fsconfig, hfd]
    · have hc : fsconfig_arg_check .fsconfig_set_binary keyPtr valPtr aux =
          some (-EINVAL) := by
        simp only [fsconfig_arg_check]
        rw [if_pos]
        rcases h with h | h
        · exact Or.inr (Or.inr (Or.inl h))
        · exact Or.inr (Or.inr (Or.inr h))
      simp [sys_fsconfig, not_lt.mpr hfd, hc]

/-- Witness for C6 at the concrete boundary input 1,048,577. -/
theorem C6_witness :
    ((1048577 : Int) ≤ 0 ∨ 1024 * 1024 < (1048577 : Int)) ∧
    sys_fsconfig tbl0 co0 ext0 7 .fsconfig_set_binary true true 1048577 =
      .ret (-EINVAL) [] none :=
  ⟨Or.inr (by norm_num),
    (C6_binary_size_bounds tbl0 co0 ext0 7 true true 1048577).2
      (Or.inr (by norm_num))⟩

/-! ## Claim C7 -/

/-- C7: in a parameter-accepting phase, if and only if the command is the
string form and the key is exactly "source" is the value routed to the
dedicated source setter; every other key, and the flag and binary forms
even with key "source", go to the generic option-parsing collaborator. -/
theorem C7_source_routing (ext : Ext) (fc : FsContext)
    (key value : Option String) (aux : Int)
    (h : fc.phase = .CreateParams ∨ fc.phase = .ReconfParams) :
    (vfs_fsconfig ext fc .fsconfig_set_string key value aux =
      if key = some ("source") then
        .ret ext.set_source_ret fc [Ev.setSource value]
      else
        .ret ext.parse_ret fc [Ev.parseOption key value aux]) ∧
    vfs_fsconfig ext fc .fsconfig_set_flag key value aux =
      .ret ext.parse_ret fc [Ev.parseOption key value aux] ∧
    vfs_fsconfig ext fc .fsconfig_set_binary key value aux =
      .ret ext.parse_ret fc [Ev.parseOption key value aux] := by
  have hna : fc.phase ≠ .AwaitingReconf := by
    rcases h with h | h <;> simp [h]
  refine ⟨?_, ?_, ?_⟩
  · rw [vfs_fsconfig_not_awaiting ext fc .fsconfig_set_string key value aux hna,
      dispatch_param_pass ext fc .fsconfig_set_string key value aux [] rfl h]
    simp
  · rw [vfs_fsconfig_not_awaiting ext fc .fsconfig_set_flag key value aux hna,
      dispatch_param_pass ext fc .fsconfig_set_flag key value aux [] rfl h]
    simp
  · rw [vfs_fsconfig_not_awaiting ext fc .fsconfig_set_binary key value aux hna,
      dispatch_param_pass ext fc .fsconfig_set_binary key value aux [] rfl h]
    simp

/-- Witness for C7 at a concrete input: key "source" with the string form
routes to the source setter, while the flag form with the same key goes
to the generic parser. -/
theorem C7_witness :
    ((⟨.CreateParams, false⟩ : FsContext).phase = Phase.CreateParams ∨
      (⟨.CreateParams, false⟩ : FsContext).phase = Phase.ReconfParams) ∧
    ((vfs_fsconfig ext0 ⟨.CreateParams, false⟩ .fsconfig_set_string
        (some ("source")) (some ("sda")) 0 =
      if some ("source") = some ("source") then
        .ret ext0.set_source_ret ⟨.CreateParams, false⟩
          [Ev.setSource (some ("sda"))]
      else
        .ret ext0.parse_ret ⟨.CreateParams, false⟩
          [Ev.parseOption (some ("source")) (some ("sda")) 0]) ∧
    vfs_fsconfig ext0 ⟨.CreateParams, false⟩ .fsconfig_set_flag
        (some ("source")) (some ("sda")) 0 =
      .ret ext0.parse_ret ⟨.CreateParams, false⟩
        [Ev.parseOption (some ("source")) (some ("sda")) 0] ∧
    vfs_fsconfig ext0 ⟨.CreateParams, false⟩ .fsconfig_set_binary
        (some ("source")) (some ("sda")) 0 =
      .ret ext0.parse_ret ⟨.CreateParams, false⟩
        [Ev.parseOption (some ("source")) (some ("sda")) 0]) :=
  ⟨Or.inl rfl,
    C7_source_routing ext0 ⟨.CreateParams, false⟩ (some ("source"))
      (some ("sda")) 0 (Or.inl rfl)⟩

/-! ## Claim C1 -/

/-- Counterexample to C1 as stated: in phase `AwaitingReconf` with a
failing driver re-initialization, trigger-create fails with the
re-initialization error `-ENOMEM`, not the busy error, so "in any other
phase it fails with the busy error" is false. -/
theorem C1_counterexample :
    vfs_fsconfig extInitFail ⟨.AwaitingReconf, true⟩ .fsconfig_cmd_create
        none none 0 =
      .ret (-ENOMEM) ⟨.Failed, true⟩ [Ev.initFs] ∧
    (-ENOMEM : Int) ≠ -EBUSY := by
  refine ⟨?_, by decide⟩
  decide

/-- C1 as amended: trigger-create succeeds only from `CreateParams`; in
phases other than `CreateParams` and `AwaitingReconf` it fails with the
busy error; from `AwaitingReconf` the re-initialization preamble runs
first, its failure being surfaced verbatim (phase `Failed`) and its
success leading to the busy error in phase `ReconfParams`; when
dispatched from `CreateParams` the phase is first set to `Creating` (the
phase the tree-construction collaborator is invoked in), then on success
the phase becomes exactly `AwaitingMount`, and on failure it becomes
`Failed` with the collaborator's error returned. -/
theorem C1_create_phase_transitions (ext : Ext) (fc : FsContext)
    (key value : Option String) (aux : Int) :
    (fc.phase = .CreateParams →
      vfs_fsconfig ext fc .fsconfig_cmd_create key value aux =
        (if ext.get_tree_ret = 0 then
          .ret ext.get_tree_ret { fc with phase := .AwaitingMount }
            [Ev.getTree .Creating]
        else
          .ret ext.get_tree_ret { fc with phase := .Failed }
            [Ev.getTree .Creating])) ∧
    (fc.phase ≠ .CreateParams → fc.phase ≠ .AwaitingReconf →
      vfs_fsconfig ext fc .fsconfig_cmd_create key value aux =
        .ret (-EBUSY) fc []) ∧
    (fc.phase = .AwaitingReconf →
      (fc.has_init = true → ext.init_ret < 0 →
        vfs_fsconfig ext fc .fsconfig_cmd_create key value aux =
          .ret ext.init_ret { fc with phase := .Failed } [Ev.initFs]) ∧
      ((fc.has_init = true → 0 ≤ ext.init_ret) → ext.security_ret < 0 →
        vfs_fsconfig ext fc .fsconfig_cmd_create key value aux =
          .ret ext.security_ret { fc with phase := .Failed }
            (preambleEvs fc)) ∧
      ((fc.has_init = true → 0 ≤ ext.init_ret) → 0 ≤ ext.security_ret →
        vfs_fsconfig ext fc .fsconfig_cmd_create key value aux =
          .ret (-EBUSY) { fc with phase := .ReconfParams }
            (preambleEvs fc))) := by
  refine ⟨fun h => ?_, fun h1 h2 => ?_,
    fun h => ⟨fun hh hi =>
        vfs_fsconfig_init_fail ext fc .fsconfig_cmd_create key value aux h hh
          hi,
      fun hi hs =>
        vfs_fsconfig_security_fail ext fc .fsconfig_cmd_create key value aux h
          hi hs,
      fun hi hs => ?_⟩⟩
  · rw [vfs_fsconfig_not_awaiting ext fc .fsconfig_cmd_create key value aux
      (by simp [h])]
    simp [fsconfig_dispatch, h]
  · rw [vfs_fsconfig_not_awaiting ext fc .fsconfig_cmd_create key value aux h2]
    simp [fsconfig_dispatch, h1]
  · rw [vfs_fsconfig_preamble_ok ext fc .fsconfig_cmd_create key value aux h
      hi hs]
    simp [fsconfig_dispatch]

/-- Witness for C1's amended theorem at a concrete input: a successful
create from `CreateParams`. -/
theorem C1_witness :
    (⟨.CreateParams, false⟩ : FsContext).phase = Phase.CreateParams ∧
    vfs_fsconfig ext0 ⟨.CreateParams, false⟩ .fsconfig_cmd_create none none
        0 =
      (if ext0.get_tree_ret = 0 then
        .ret ext0.get_tree_ret
          { (⟨.CreateParams, false⟩ : FsContext) with phase := .AwaitingMount }
          [Ev.getTree .Creating]
      else
        .ret ext0.get_tree_ret
          { (⟨.CreateParams, false⟩ : FsContext) with phase := .Failed }
          [Ev.getTree .Creating]) :=
  ⟨rfl,
    (C1_create_phase_transitions ext0 ⟨.CreateParams, false⟩ none none 0).1
      rfl⟩

/-! ## Claim C2 -/

/-- Counterexample to C2 as stated: a `set_flag` call on a context in
phase `AwaitingReconf` — a phase that is neither `CreateParams` nor
`ReconfParams` — returns 0 (the parser collaborator's success) rather
than the busy error, and changes the phase to `ReconfParams`. -/
theorem C2_counterexample :
    vfs_fsconfig ext0 ⟨.AwaitingReconf, false⟩ .fsconfig_set_flag
        (some ("ro")) none 0 =
      .ret 0 ⟨.ReconfParams, false⟩
        [Ev.security, Ev.parseOption (some ("ro")) none 0] ∧
    Phase.AwaitingReconf ≠ Phase.CreateParams ∧
    Phase.AwaitingReconf ≠ Phase.ReconfParams ∧
    (0 : Int) ≠ -EBUSY ∧
    Phase.ReconfParams ≠ Phase.AwaitingReconf := by
  refine ⟨?_, by decide, by decide, by decide, by decide⟩
  decide

/-- C2 as amended: a parameter-setting command leaves the phase unchanged
and routes to the collaborator in `CreateParams`/`ReconfParams`; returns
the busy error untouched in `Creating`/`AwaitingMount`/`Failed`; and in
`AwaitingReconf` runs the re-initialization preamble first, after whose
success the command is accepted from phase `ReconfParams` (so it can
succeed from `AwaitingReconf`), while a preamble failure surfaces its
error with phase `Failed`. -/
theorem C2_param_phase_gate (ext : Ext) (fc : FsContext) (cmd : Cmd)
    (key value : Option String) (aux : Int) (hc : cmd.isParamSet = true) :
    ((fc.phase = .CreateParams ∨ fc.phase = .ReconfParams) →
      vfs_fsconfig ext fc cmd key value aux =
        (if cmd = .fsconfig_set_string ∧ key = some ("source") then
          .ret ext.set_source_ret fc [Ev.setSource value]
        else
          .ret ext.parse_ret fc [Ev.parseOption key value aux])) ∧
    ((fc.phase = .Creating ∨ fc.phase = .AwaitingMount ∨
        fc.phase = .Failed) →
      vfs_fsconfig ext fc cmd key value aux = .ret (-EBUSY) fc []) ∧
    (fc.phase = .AwaitingReconf →
      ((fc.has_init = true → 0 ≤ ext.init_ret) → 0 ≤ ext.security_ret →
        vfs_fsconfig ext fc cmd key value aux =
          (if cmd = .fsconfig_set_string ∧ key = some ("source") then
            .ret ext.set_source_ret { fc with phase := .ReconfParams }
              (preambleEvs fc ++ [Ev.setSource value])
          else
            .ret ext.parse_ret { fc with phase := .ReconfParams }
              (preambleEvs fc ++ [Ev.parseOption key value aux]))) ∧
      (fc.has_init = true → ext.init_ret < 0 →
        vfs_fsconfig ext fc cmd key value aux =
          .ret ext.init_ret { fc with phase := .Failed } [Ev.initFs]) ∧
      ((fc.has_init = true → 0 ≤ ext.init_ret) → ext.security_ret < 0 →
        vfs_fsconfig ext fc cmd key value aux =
          .ret ext.security_ret { fc with phase := .Failed }
            (preambleEvs fc))) := by
  refine ⟨fun h => ?_, fun h => ?_,
    fun h => ⟨fun hi hs => ?_,
      fun hh hi => vfs_fsconfig_init_fail ext fc cmd key value aux h hh hi,
      fun hi hs =>
        vfs_fsconfig_security_fail ext fc cmd key value aux h hi hs⟩⟩
  · have hna : fc.phase ≠ .AwaitingReconf := by
      rcases h with h | h <;> simp [h]
    rw [vfs_fsconfig_not_awaiting ext fc cmd key value aux hna,
      dispatch_param_pass ext fc cmd key value aux [] hc h]
    simp
  · have hna : fc.phase ≠ .AwaitingReconf := by
      rcases h with h | h | h <;> simp [h]
    have hg : fc.phase ≠ .CreateParams ∧ fc.phase ≠ .ReconfParams := by
      rcases h with h | h | h <;> simp [h]
    rw [vfs_fsconfig_not_awaiting ext fc cmd key value aux hna]
    cases cmd
    case fsconfig_set_flag => simp [fsconfig_dispatch, hg]
    case fsconfig_set_string => simp [fsconfig_dispatch, hg]
    case fsconfig_set_binary => simp [fsconfig_dispatch, hg]
    all_goals simp [Cmd.isParamSet] at hc
  · rw [vfs_fsconfig_preamble_ok ext fc cmd key value aux h hi hs,
      dispatch_param_pass ext _ cmd key value aux (preambleEvs fc) hc
        (Or.inr rfl)]

/-- Witness for C2's amended theorem at a concrete input: a `set_flag` in
phase `Creating` is rejected busy with the phase untouched. -/
theorem C2_witness :
    Cmd.isParamSet .fsconfig_set_flag = true ∧
    ((⟨.Creating, false⟩ : FsContext).phase = Phase.Creating ∨
      (⟨.Creating, false⟩ : FsContext).phase = Phase.AwaitingMount ∨
      (⟨.Creating, false⟩ : FsContext).phase = Phase.Failed) ∧
    vfs_fsconfig ext0 ⟨.Creating, false⟩ .fsconfig_set_flag (some ("ro"))
        none 0 =
      .ret (-EBUSY) ⟨.Creating, false⟩ [] :=
  ⟨rfl, Or.inl rfl,
    (C2_param_phase_gate ext0 ⟨.Creating, false⟩ .fsconfig_set_flag
        (some ("ro")) none 0 rfl).2.1 (Or.inl rfl)⟩

/-! ## Claim C3 -/

/-- Counterexample to C3 as stated: a context in phase `ReconfParams`
given the reconfigure-trigger gets `-EOPNOTSUPP` — the state machine's
default branch rejects the command as unsupported even in the one phase
the claim calls legal. -/
theorem C3_counterexample :
    vfs_fsconfig ext0 ⟨.ReconfParams, false⟩ .fsconfig_cmd_reconfigure none
        none 0 =
      .ret (-EOPNOTSUPP) ⟨.ReconfParams, false⟩ [] ∧
    (-EOPNOTSUPP : Int) ≠ -EBUSY := by
  refine ⟨?_, by decide⟩
  decide

/-- C3 as amended: the reconfigure-trigger passes the `fsconfig` entry
point's argument-shape validation (it belongs to the fixed command
enumeration) and reaches the state machine, but the state machine's
switch has no case for it: it returns `-EOPNOTSUPP` in every phase —
directly outside `AwaitingReconf`, and after a successful
re-initialization preamble from `AwaitingReconf`. -/
theorem C3_reconfigure_unsupported (ext : Ext) (fc : FsContext)
    (key value : Option String) (aux : Int) :
    fsconfig_arg_check .fsconfig_cmd_reconfigure false false 0 = none ∧
    (fc.phase ≠ .AwaitingReconf →
      vfs_fsconfig ext fc .fsconfig_cmd_reconfigure key value aux =
        .ret (-EOPNOTSUPP) fc []) ∧
    (fc.phase = .AwaitingReconf →
      (fc.has_init = true → 0 ≤ ext.init_ret) → 0 ≤ ext.security_ret →
      vfs_fsconfig ext fc .fsconfig_cmd_reconfigure key value aux =
        .ret (-EOPNOTSUPP) { fc with phase := .ReconfParams }
          (preambleEvs fc)) := by
  refine ⟨by decide, fun h => ?_, fun h hi hs => ?_⟩
  · rw [vfs_fsconfig_not_awaiting ext fc .fsconfig_cmd_reconfigure key value
      aux h]
    simp [fsconfig_dispatch]
  · rw [vfs_fsconfig_preamble_ok ext fc .fsconfig_cmd_reconfigure key value
      aux h hi hs]
    simp [fsconfig_dispatch]

/-- Witness for C3's amended theorem at a concrete input: the
reconfigure-trigger in phase `ReconfParams` itself. -/
theorem C3_witness :
    (⟨.ReconfParams, false⟩ : FsContext).phase ≠ Phase.AwaitingReconf ∧
    vfs_fsconfig ext0 ⟨.ReconfParams, false⟩ .fsconfig_cmd_reconfigure none
        none 0 =
      .ret (-EOPNOTSUPP) ⟨.ReconfParams, false⟩ [] :=
  ⟨by decide,
    (C3_reconfigure_unsupported ext0 ⟨.ReconfParams, false⟩ none none 0).2.1
      (by decide)⟩

/-! ## Claim C4 -/

/-- Counterexample to C4 as stated: a `set_flag` call on fd 3, open but
bound to a file of a different type, returns `-EINVAL`, not the
bad-handle error `-EBADF` the claim requires. -/
theorem C4_counterexample :
    sys_fsconfig tbl0 co0 ext0 3 .fsconfig_set_flag true false 0 =
      .ret (-EINVAL) [SysEv.fdget, SysEv.fdput] none ∧
    (-EINVAL : Int) ≠ -EBADF := by
  refine ⟨?_, by decide⟩
  decide

/-- C4 as amended: a configure call whose descriptor argument is a valid
open descriptor not bound to this subsystem's type fails with `-EINVAL`
(the bad-handle error `-EBADF` is reserved for a descriptor with no open
file at all), without copying key or value and without taking the lock —
the step trace holds only the descriptor get and put. -/
theorem C4_wrong_type_descriptor (tbl : Int → FdEntry) (co : CopyOracle)
    (ext : Ext) (fd : Int) (cmd : Cmd) (keyPtr valPtr : Bool) (aux : Int)
    (hfd : 0 ≤ fd)
    (hshape : fsconfig_arg_check cmd keyPtr valPtr aux = none)
    (htbl : tbl fd = .otherFile) :
    sys_fsconfig tbl co ext fd cmd keyPtr valPtr aux =
      .ret (-EINVAL) [SysEv.fdget, SysEv.fdput] none ∧
    (-EINVAL : Int) ≠ -EBADF ∧
    SysEv.copyKey ∉ [SysEv.fdget, SysEv.fdput] ∧
    SysEv.copyValue ∉ [SysEv.fdget, SysEv.fdput] ∧
    SysEv.lock ∉ [SysEv.fdget, SysEv.fdput] := by
  refine ⟨?_, by decide, by decide, by decide, by decide⟩
  simp [sys_fsconfig, not_lt.mpr hfd, hshape, htbl]

/-- Witness for C4's amended theorem at the same concrete input as the
counterexample. -/
theorem C4_witness :
    (0 : Int) ≤ 3 ∧
    fsconfig_arg_check .fsconfig_set_flag true false 0 = none ∧
    tbl0 3 = .otherFile ∧
    (sys_fsconfig tbl0 co0 ext0 3 .fsconfig_set_flag true false 0 =
        .ret (-EINVAL) [SysEv.fdget, SysEv.fdput] none ∧
      (-EINVAL : Int) ≠ -EBADF ∧
      SysEv.copyKey ∉ [SysEv.fdget, SysEv.fdput] ∧
      SysEv.copyValue ∉ [SysEv.fdget, SysEv.fdput] ∧
      SysEv.lock ∉ [SysEv.fdget, SysEv.fdput]) :=
  ⟨by decide, by decide, by decide,
    C4_wrong_type_descriptor tbl0 co0 ext0 3 .fsconfig_set_flag true false 0
      (by decide) (by decide) (by decide)⟩

end Fsopen
